import Mathlib

/-!
Shallow embedding of `src/config.ts` (and the earlier variant in
`src/unnamed/part_000`) of the waifufetch-config repository.

The repository's core is the daily-quote cache-or-fetch routine
`fetchQuote`, plus the assembly of the dashboard line list.  The
embedding makes the implicit environment of `fetchQuote` explicit:

* the cache file at `~/.cache/motd.txt` becomes an `Option CacheFile`
  (content plus last-modified timestamp) inside an `FsState`;
* the wall clock (`new Date()`) becomes a `Date` argument;
* the single `fetch("https://zenquotes.io/api/random/")` becomes a
  `FetchOutcome` argument describing what that one request would do:
  throw (transport error), return a non-success status, return a
  success status whose body fails to parse as JSON, or return a
  success status with a parsed list of quote records;
* JavaScript exceptions escaping `fetchQuote` become `Except.error`
  (`JsError`); normal returns become `Except.ok` carrying the returned
  `string | undefined` as an `Option String`, the filesystem state
  after the call, and the number of network requests issued.
-/

/-- A point in (local) time, as the JS `Date` accessors expose it:
`getFullYear`/`getMonth`/`getDate` plus the time-of-day fields that
`sameDay` never reads. -/
structure Date where
  year : Int
  month : Nat
  day : Nat
  hour : Nat := 0
  minute : Nat := 0
  second : Nat := 0
deriving DecidableEq, Repr

/-- Returns whether two dates represent the same day
(`sameDay` in `src/config.ts`, identical in `src/unnamed/part_000`):
`date1.getFullYear() == date2.getFullYear() && date1.getMonth() == date2.getMonth()
&& date1.getDate() == date2.getDate()`. -/
def sameDay (date1 date2 : Date) : Bool :=
  date1.year == date2.year && date1.month == date2.month && date1.day == date2.day

/-- The cache file at `~/.cache/motd.txt`: its text content and its
last-modified timestamp (`fs.stat(...).mtime`). -/
structure CacheFile where
  content : String
  mtime : Date
deriving DecidableEq, Repr

/-- The filesystem state `fetchQuote` reads and writes: the one cache
file, or `none` when no file exists at the cache path. -/
structure FsState where
  cache : Option CacheFile
deriving DecidableEq, Repr

/-- One record of the quotes-API response (`Response` element in the
source).  Only `q` and `a` are ever consumed. -/
structure QuoteRecord where
  q : String
  a : String
  i : String := ""
  c : String := ""
  h : String := ""
deriving DecidableEq, Repr

/-- What the single network request would do if issued:
`transportError` = `fetch` rejects; `notOk` = response with
`response.ok` false; `badJson` = success status but `response.json()`
rejects; `success data` = success status with body parsed as the list
`data`. -/
inductive FetchOutcome where
  | transportError
  | notOk
  | badJson
  | success (data : List QuoteRecord)
deriving DecidableEq, Repr

/-- A JavaScript exception escaping `fetchQuote`:
`fetchError` = the `fetch(...)` rejection itself, `jsonError` = the
`response.json()` rejection, `typeError` = reading `.q` of
`data[0]` when the parsed list is empty (`data[0]!.q`). -/
inductive JsError where
  | fetchError
  | jsonError
  | typeError
deriving DecidableEq, Repr

/-- A normal return of `fetchQuote`: the returned `string | undefined`,
the filesystem state after the call, and how many network requests the
call issued (0 on the cache fast path, 1 otherwise). -/
structure FetchResult where
  result : Option String
  fs : FsState
  networkCalls : Nat
deriving DecidableEq, Repr

/-- The guard of the cache fast path in both variants: a cache file
exists (`await cacheFile.exists()`) and its `mtime` falls on the same
calendar day as `new Date()`. -/
def cacheFresh (fs : FsState) (today : Date) : Bool :=
  match fs.cache with
  | some cf => sameDay cf.mtime today
  | none => false

/-- `fetchQuote` of `src/config.ts` (the fallback-enabled variant).
`oldQuote` is the thunk `async () => oldQuoteExists ? await
cacheFile.text() : undefined`; the `try`/`catch` around `fetch` and
`response.json()` turns both rejections, as well as a non-success
status, into `return oldQuote()`.  A successful refresh formats
`` `${quote}\n~ ${author}` `` and overwrites the cache file with it
(the filesystem stamps the write time, i.e. `today`, as the new
`mtime`).  `data[0]!.q` on an empty parsed list throws a `TypeError`
outside the `try` block, so it escapes the function. -/
def fetchQuote (fs : FsState) (today : Date) (net : FetchOutcome) :
    Except JsError FetchResult :=
  let oldQuote : Option String := fs.cache.map CacheFile.content
  if cacheFresh fs today then
    Except.ok ⟨oldQuote, fs, 0⟩
  else
    match net with
    | FetchOutcome.transportError => Except.ok ⟨oldQuote, fs, 1⟩
    | FetchOutcome.notOk => Except.ok ⟨oldQuote, fs, 1⟩
    | FetchOutcome.badJson => Except.ok ⟨oldQuote, fs, 1⟩
    | FetchOutcome.success data =>
      match data with
      | [] => Except.error JsError.typeError
      | r :: _ =>
        let text := r.q ++ "\n~ " ++ r.a
        Except.ok ⟨some text, ⟨some ⟨text, today⟩⟩, 1⟩

/-- `fetchQuote` of `src/unnamed/part_000` (the original variant).
No `try`/`catch`: a `fetch` rejection or a `response.json()` rejection
propagates out of the function; a non-success status returns
`undefined` with no fallback to the prior cache. -/
def fetchQuoteOrig (fs : FsState) (today : Date) (net : FetchOutcome) :
    Except JsError FetchResult :=
  if cacheFresh fs today then
    Except.ok ⟨fs.cache.map CacheFile.content, fs, 0⟩
  else
    match net with
    | FetchOutcome.transportError => Except.error JsError.fetchError
    | FetchOutcome.notOk => Except.ok ⟨none, fs, 1⟩
    | FetchOutcome.badJson => Except.error JsError.jsonError
    | FetchOutcome.success data =>
      match data with
      | [] => Except.error JsError.typeError
      | r :: _ =>
        let text := r.q ++ "\n~ " ++ r.a
        Except.ok ⟨some text, ⟨some ⟨text, today⟩⟩, 1⟩

/-- One entry of the produced dashboard list: an `{icon, text}` pair,
a `{divider}` line, or a bare `{text}` line (the quote line's shape). -/
inductive DashboardLine where
  | entry (icon : String) (text : String)
  | divider (s : String)
  | textOnly (text : String)
deriving DecidableEq, Repr

/-- Convenience function for easier applying colors on text (`style` in
the source); `ansi` stands for the external `Bun.color(color, "ansi")`
conversion. -/
def style (ansi : String → String) (color : String) (text : String) : String :=
  ansi color ++ text

/-- catppuccin mocha palette (`palette` in the source). -/
structure Palette where
  rosewater : String
  flamingo : String
  pink : String
  mauve : String
  red : String
  maroon : String
  peach : String
  yellow : String
  green : String
  teal : String
  sky : String
  sapphire : String
  blue : String
  lavender : String
  text : String
deriving DecidableEq, Repr

/-- The palette values of `src/config.ts`. -/
def palette : Palette :=
  ⟨"#f5e0dc", "#f2cdcd", "#f5c2e7", "#cba6f7", "#f38ba8", "#eba0ac", "#fab387",
   "#f9e2af", "#a6e3a1", "#94e2d5", "#89dceb", "#74c7ec", "#89b4fa", "#b4befe",
   "#cdd6f4"⟩

/-- A one-character string from a Unicode code point: the icon glyph
literals of the source (JS surrogate pairs decoded to code points). -/
def glyph (n : Nat) : String := String.singleton (Char.ofNat n)

/-- The `dashboard` list of the `config` object in `src/config.ts`.
`ansi` is `Bun.color(-, "ansi")`; `whoamiOut`, `unameOOut`, `unameMOut`,
`uptimeOut` are the raw outputs of the shelled-out commands (the source
trims them); `shell`, `termv`, `editor`, `browser`, `desktop` are the
environment-derived optional strings, and `quote` the result of
`fetchQuote`.  Each absent optional contributes the empty spread `[]`. -/
def dashboard (ansi : String → String)
    (whoamiOut unameOOut unameMOut uptimeOut : String)
    (shell termv editor browser desktop quote : Option String) :
    List DashboardLine :=
  [ DashboardLine.entry (style ansi palette.red (glyph 0xF415))
      (style ansi palette.text whoamiOut.trim),
    DashboardLine.divider " ",
    DashboardLine.entry (style ansi palette.peach (glyph 0xF01C5)) "System",
    DashboardLine.entry (style ansi palette.peach (glyph 0xEBC6))
      (style ansi palette.text unameOOut.trim),
    DashboardLine.entry (style ansi palette.peach (glyph 0xF4BC))
      (style ansi palette.text unameMOut.trim),
    DashboardLine.entry (style ansi palette.peach (glyph 0xF0535))
      (style ansi palette.text uptimeOut.trim),
    DashboardLine.divider " ",
    DashboardLine.entry (style ansi palette.yellow (glyph 0xF02DC)) "Environment" ]
  ++ (match shell with
      | none => []
      | some s => [DashboardLine.entry (style ansi palette.yellow (glyph 0xEBCA))
          (style ansi palette.text s)])
  ++ (match termv with
      | none => []
      | some s => [DashboardLine.entry (style ansi palette.yellow (glyph 0xEA85))
          (style ansi palette.text s)])
  ++ (match editor with
      | none => []
      | some s => [DashboardLine.entry (style ansi palette.yellow (glyph 0xF044))
          (style ansi palette.text s)])
  ++ (match browser with
      | none => []
      | some s => [DashboardLine.entry (style ansi palette.yellow (glyph 0xF0239))
          (style ansi palette.text s)])
  ++ (match desktop with
      | none => []
      | some s => [DashboardLine.entry (style ansi palette.yellow (glyph 0xF0379))
          (style ansi palette.text s)])
  ++ [DashboardLine.divider " "]
  ++ (match quote with
      | none => []
      | some s => [DashboardLine.textOnly (style ansi palette.text s)])

/-- C1: whenever the cache file exists and its last-modified timestamp
falls on the same local calendar day as the current date, `fetchQuote`
performs no network request (0 network calls, and the result does not
depend on what the request would have done) and returns exactly the
cache file's stored content, leaving the filesystem unchanged. -/
theorem fetchQuote_sameDay_hit (fs : FsState) (today : Date)
    (net : FetchOutcome) (cf : CacheFile)
    (hc : fs.cache = some cf) (hfresh : sameDay cf.mtime today = true) :
    fetchQuote fs today net = Except.ok ⟨some cf.content, fs, 0⟩ := by
  have hg : cacheFresh fs today = true := by
    simp [cacheFresh, hc, hfresh]
  simp [fetchQuote, hg, hc]

theorem fetchQuote_sameDay_hit_witness :
    fetchQuote ⟨some ⟨"hi\n~ Bob", ⟨2024, 4, 17, 9, 0, 0⟩⟩⟩
        ⟨2024, 4, 17, 23, 59, 59⟩ FetchOutcome.transportError =
      Except.ok ⟨some "hi\n~ Bob", ⟨some ⟨"hi\n~ Bob", ⟨2024, 4, 17, 9, 0, 0⟩⟩⟩, 0⟩ :=
  fetchQuote_sameDay_hit _ _ _ ⟨"hi\n~ Bob", ⟨2024, 4, 17, 9, 0, 0⟩⟩ rfl (by decide)

/-- C2: whenever the cache entry is absent or not last modified today
(`cacheFresh` false), and the network fetch succeeds with a non-empty
parsed list whose first record has quote text `r.q` and author `r.a`,
`fetchQuote` returns the string `r.q ++ "\n~ " ++ r.a` and the cache
file afterwards holds exactly that text (created or overwritten, with
the write time as its new modification time). -/
theorem fetchQuote_refresh_success (fs : FsState) (today : Date)
    (r : QuoteRecord) (rest : List QuoteRecord)
    (hstale : cacheFresh fs today = false) :
    fetchQuote fs today (FetchOutcome.success (r :: rest)) =
      Except.ok ⟨some (r.q ++ "\n~ " ++ r.a),
        ⟨some ⟨r.q ++ "\n~ " ++ r.a, today⟩⟩, 1⟩ := by
  simp [fetchQuote, hstale]

theorem fetchQuote_refresh_success_witness :
    fetchQuote ⟨none⟩ ⟨2024, 4, 17, 12, 0, 0⟩
        (FetchOutcome.success [⟨"Hi", "Bob", "", "", ""⟩]) =
      Except.ok ⟨some "Hi\n~ Bob",
        ⟨some ⟨"Hi\n~ Bob", ⟨2024, 4, 17, 12, 0, 0⟩⟩⟩, 1⟩ :=
  fetchQuote_refresh_success ⟨none⟩ ⟨2024, 4, 17, 12, 0, 0⟩
    ⟨"Hi", "Bob", "", "", ""⟩ [] (by decide)

/-- C3: whenever a cache entry with content `cf.content` exists but was
last modified on a different calendar day, and the network request
fails with a transport error or returns a non-success status,
`fetchQuote` returns the prior cached content, raises no error to the
caller, and leaves the cache file untouched. -/
theorem fetchQuote_failure_fallback (fs : FsState) (today : Date)
    (net : FetchOutcome) (cf : CacheFile)
    (hc : fs.cache = some cf) (hstale : sameDay cf.mtime today = false)
    (hnet : net = FetchOutcome.transportError ∨ net = FetchOutcome.notOk) :
    fetchQuote fs today net = Except.ok ⟨some cf.content, fs, 1⟩ := by
  have hg : cacheFresh fs today = false := by
    simp [cacheFresh, hc, hstale]
  rcases hnet with h | h <;> subst h <;> simp [fetchQuote, hg, hc]

theorem fetchQuote_failure_fallback_witness :
    fetchQuote ⟨some ⟨"Old\n~ X", ⟨2024, 4, 16, 12, 0, 0⟩⟩⟩
        ⟨2024, 4, 17, 12, 0, 0⟩ FetchOutcome.transportError =
      Except.ok ⟨some "Old\n~ X",
        ⟨some ⟨"Old\n~ X", ⟨2024, 4, 16, 12, 0, 0⟩⟩⟩, 1⟩ :=
  fetchQuote_failure_fallback _ _ _ ⟨"Old\n~ X", ⟨2024, 4, 16, 12, 0, 0⟩⟩
    rfl (by decide) (Or.inl rfl)

/-- C4: whenever no cache entry exists and the network request fails
with a transport error or returns a non-success status, `fetchQuote`
returns absent (`none`) and the filesystem is unchanged: no cache file
is created. -/
theorem fetchQuote_failure_noCache (fs : FsState) (today : Date)
    (net : FetchOutcome)
    (hc : fs.cache = none)
    (hnet : net = FetchOutcome.transportError ∨ net = FetchOutcome.notOk) :
    fetchQuote fs today net = Except.ok ⟨none, fs, 1⟩ := by
  have hg : cacheFresh fs today = false := by
    simp [cacheFresh, hc]
  rcases hnet with h | h <;> subst h <;> simp [fetchQuote, hg, hc]

theorem fetchQuote_failure_noCache_witness :
    fetchQuote ⟨none⟩ ⟨2024, 4, 17, 12, 0, 0⟩ FetchOutcome.notOk =
      Except.ok ⟨none, ⟨none⟩, 1⟩ :=
  fetchQuote_failure_noCache ⟨none⟩ ⟨2024, 4, 17, 12, 0, 0⟩
    FetchOutcome.notOk rfl (Or.inr rfl)

/-- C5: the claim says an empty list under a success status is treated
as a fetch failure; but `data[0]!.q` in the code has no emptiness
guard, and the resulting TypeError is thrown outside the
`try`/`catch`, so at these inputs (no cache entry / a stale cache
entry, success status, empty body) `fetchQuote` propagates an
unhandled `TypeError` instead of falling back. -/
theorem fetchQuote_emptySuccess_typeError :
    fetchQuote ⟨none⟩ ⟨2024, 4, 17, 12, 0, 0⟩ (FetchOutcome.success []) =
      Except.error JsError.typeError ∧
    fetchQuote ⟨some ⟨"Old\n~ X", ⟨2024, 4, 16, 12, 0, 0⟩⟩⟩
        ⟨2024, 4, 17, 12, 0, 0⟩ (FetchOutcome.success []) =
      Except.error JsError.typeError := by
  exact ⟨rfl, rfl⟩

/-- C6: `sameDay d1 d2` holds exactly when the two dates agree on
local year, month and day (the time-of-day fields are never read);
consequently, whenever the cache entry's modification time and the
current date differ in that calendar triple — in particular a write at
23:59:59 of day N checked at any timestamp of day N+1 — `fetchQuote`
does not take the cache fast path: every normal return issues exactly
one network request. -/
theorem sameDay_calendar_exact :
    (∀ d1 d2 : Date, sameDay d1 d2 = true ↔
      (d1.year = d2.year ∧ d1.month = d2.month ∧ d1.day = d2.day)) ∧
    (∀ (fs : FsState) (cf : CacheFile) (today : Date) (net : FetchOutcome),
      fs.cache = some cf →
      ¬(cf.mtime.year = today.year ∧ cf.mtime.month = today.month ∧
          cf.mtime.day = today.day) →
      cacheFresh fs today = false ∧
      ∀ res : FetchResult, fetchQuote fs today net = Except.ok res →
        res.networkCalls = 1) := by
  have hiff : ∀ d1 d2 : Date, sameDay d1 d2 = true ↔
      (d1.year = d2.year ∧ d1.month = d2.month ∧ d1.day = d2.day) := by
    intro d1 d2
    simp [sameDay, and_assoc]
  refine ⟨hiff, ?_⟩
  intro fs cf today net hc hdiff
  have hstale : sameDay cf.mtime today = false := by
    cases hsd : sameDay cf.mtime today with
    | false => rfl
    | true => exact absurd ((hiff cf.mtime today).mp hsd) hdiff
  have hg : cacheFresh fs today = false := by
    simp [cacheFresh, hc, hstale]
  refine ⟨hg, ?_⟩
  intro res hres
  cases net with
  | transportError => simp [fetchQuote, hg] at hres; simp [← hres]
  | notOk => simp [fetchQuote, hg] at hres; simp [← hres]
  | badJson => simp [fetchQuote, hg] at hres; simp [← hres]
  | success data =>
    cases data with
    | nil => simp [fetchQuote, hg] at hres
    | cons r rest => simp [fetchQuote, hg] at hres; simp [← hres]

theorem sameDay_calendar_exact_witness :
    cacheFresh ⟨some ⟨"Old\n~ X", ⟨2024, 4, 17, 23, 59, 59⟩⟩⟩
        ⟨2024, 4, 18, 0, 0, 0⟩ = false ∧
    (⟨some "Old\n~ X", ⟨some ⟨"Old\n~ X", ⟨2024, 4, 17, 23, 59, 59⟩⟩⟩, 1⟩ :
        FetchResult).networkCalls = 1 := by
  have h := sameDay_calendar_exact.2
    ⟨some ⟨"Old\n~ X", ⟨2024, 4, 17, 23, 59, 59⟩⟩⟩
    ⟨"Old\n~ X", ⟨2024, 4, 17, 23, 59, 59⟩⟩
    ⟨2024, 4, 18, 0, 0, 0⟩ FetchOutcome.notOk rfl (by decide)
  exact ⟨h.1, h.2 _ rfl⟩

/-- C7: for every normal return of `fetchQuote`, either the filesystem
is exactly as before (the same-day fast path and every failure path —
the cache file's content is untouched), or the call was a successful
refresh on a stale/absent cache: the returned text is the formatted
first record and the cache file afterwards is a full overwrite holding
exactly that text.  In particular the cache file is never deleted and
never appended to. -/
theorem fetchQuote_frame (fs : FsState) (today : Date) (net : FetchOutcome)
    (res : FetchResult) (hres : fetchQuote fs today net = Except.ok res) :
    res.fs = fs ∨
    (cacheFresh fs today = false ∧
      ∃ (r : QuoteRecord) (rest : List QuoteRecord),
        net = FetchOutcome.success (r :: rest) ∧
        res.result = some (r.q ++ "\n~ " ++ r.a) ∧
        res.fs.cache = some ⟨r.q ++ "\n~ " ++ r.a, today⟩) := by
  by_cases hg : cacheFresh fs today = true
  · left
    simp [fetchQuote, hg] at hres
    simp [← hres]
  · have hg' : cacheFresh fs today = false := by
      simpa using hg
    cases net with
    | transportError => left; simp [fetchQuote, hg'] at hres; simp [← hres]
    | notOk => left; simp [fetchQuote, hg'] at hres; simp [← hres]
    | badJson => left; simp [fetchQuote, hg'] at hres; simp [← hres]
    | success data =>
      cases data with
      | nil => simp [fetchQuote, hg'] at hres
      | cons r rest =>
        right
        simp [fetchQuote, hg'] at hres
        exact ⟨hg', r, rest, rfl, by simp [← hres], by simp [← hres]⟩

theorem fetchQuote_frame_witness :
    (⟨some "Q\n~ A", ⟨some ⟨"Q\n~ A", ⟨2024, 4, 17, 12, 0, 0⟩⟩⟩, 1⟩ :
        FetchResult).fs = (⟨none⟩ : FsState) ∨
    (cacheFresh ⟨none⟩ ⟨2024, 4, 17, 12, 0, 0⟩ = false ∧
      ∃ (r : QuoteRecord) (rest : List QuoteRecord),
        FetchOutcome.success [⟨"Q", "A", "", "", ""⟩] =
          FetchOutcome.success (r :: rest) ∧
        (⟨some "Q\n~ A", ⟨some ⟨"Q\n~ A", ⟨2024, 4, 17, 12, 0, 0⟩⟩⟩, 1⟩ :
            FetchResult).result = some (r.q ++ "\n~ " ++ r.a) ∧
        (⟨some "Q\n~ A", ⟨some ⟨"Q\n~ A", ⟨2024, 4, 17, 12, 0, 0⟩⟩⟩, 1⟩ :
            FetchResult).fs.cache = some ⟨r.q ++ "\n~ " ++ r.a,
              ⟨2024, 4, 17, 12, 0, 0⟩⟩) :=
  fetchQuote_frame ⟨none⟩ ⟨2024, 4, 17, 12, 0, 0⟩
    (FetchOutcome.success [⟨"Q", "A", "", "", ""⟩]) _ rfl

/-- C10: in the `src/config.ts` variant, if a cache entry exists when
`fetchQuote` is invoked, then every normal return carries some string:
the function never returns absent under that precondition (the only
non-string outcome, the empty-success TypeError, is a thrown error,
not a return of absent). -/
theorem fetchQuote_cacheExists_not_absent (fs : FsState) (today : Date)
    (net : FetchOutcome) (cf : CacheFile) (res : FetchResult)
    (hc : fs.cache = some cf) (hres : fetchQuote fs today net = Except.ok res) :
    ∃ s : String, res.result = some s := by
  by_cases hg : cacheFresh fs today = true
  · simp [fetchQuote, hg, hc] at hres
    exact ⟨cf.content, by simp [← hres]⟩
  · have hg' : cacheFresh fs today = false := by simpa using hg
    cases net with
    | transportError =>
      simp [fetchQuote, hg', hc] at hres
      exact ⟨cf.content, by simp [← hres]⟩
    | notOk =>
      simp [fetchQuote, hg', hc] at hres
      exact ⟨cf.content, by simp [← hres]⟩
    | badJson =>
      simp [fetchQuote, hg', hc] at hres
      exact ⟨cf.content, by simp [← hres]⟩
    | success data =>
      cases data with
      | nil => simp [fetchQuote, hg'] at hres
      | cons r rest =>
        simp [fetchQuote, hg'] at hres
        exact ⟨r.q ++ "\n~ " ++ r.a, by simp [← hres]⟩

theorem fetchQuote_cacheExists_not_absent_witness :
    ∃ s : String,
      (⟨some "Old\n~ X", ⟨some ⟨"Old\n~ X", ⟨2024, 4, 16, 12, 0, 0⟩⟩⟩, 1⟩ :
        FetchResult).result = some s :=
  fetchQuote_cacheExists_not_absent
    ⟨some ⟨"Old\n~ X", ⟨2024, 4, 16, 12, 0, 0⟩⟩⟩ ⟨2024, 4, 17, 12, 0, 0⟩
    FetchOutcome.badJson ⟨"Old\n~ X", ⟨2024, 4, 16, 12, 0, 0⟩⟩ _ rfl rfl

/-- C8: in the produced dashboard list, each absent optional value
(shell, terminal, editor, browser, desktop session, quote) contributes
no line at all — the list's length is the 9 fixed lines plus one per
present optional; the quote, when present, is appended as exactly one
extra final bare-text line (the `textOnly` shape, which carries no
icon field); and no line other than the quote line is ever of that
icon-less shape. -/
theorem dashboard_optionals (ansi : String → String)
    (whoamiOut unameOOut unameMOut uptimeOut : String)
    (shell termv editor browser desktop quote : Option String) :
    (dashboard ansi whoamiOut unameOOut unameMOut uptimeOut
        shell termv editor browser desktop quote).length =
      9 + (if shell.isSome then 1 else 0) + (if termv.isSome then 1 else 0) +
        (if editor.isSome then 1 else 0) + (if browser.isSome then 1 else 0) +
        (if desktop.isSome then 1 else 0) + (if quote.isSome then 1 else 0) ∧
    dashboard ansi whoamiOut unameOOut unameMOut uptimeOut
        shell termv editor browser desktop quote =
      dashboard ansi whoamiOut unameOOut unameMOut uptimeOut
          shell termv editor browser desktop none ++
        (match quote with
         | none => []
         | some s => [DashboardLine.textOnly (style ansi palette.text s)]) ∧
    ∀ l ∈ dashboard ansi whoamiOut unameOOut unameMOut uptimeOut
        shell termv editor browser desktop none,
      ∀ t : String, l ≠ DashboardLine.textOnly t := by
  refine ⟨?_, ?_, ?_⟩
  · cases shell <;> cases termv <;> cases editor <;> cases browser <;>
      cases desktop <;> cases quote <;> simp [dashboard]
  · cases quote <;> simp [dashboard]
  · have hall : (dashboard ansi whoamiOut unameOOut unameMOut uptimeOut
        shell termv editor browser desktop none).all
        (fun l => match l with
          | DashboardLine.textOnly _ => false
          | _ => true) = true := by
      cases shell <;> cases termv <;> cases editor <;> cases browser <;>
        cases desktop <;> rfl
    intro l hl t hcontra
    have hpred := List.all_eq_true.mp hall l hl
    subst hcontra
    simp at hpred

theorem dashboard_optionals_witness :
    (dashboard id "me" "Linux" "x86" "up 1h"
        none (some "xterm") none none none (some "Q\n~ A")).length = 11 := by
  have h := dashboard_optionals id "me" "Linux" "x86" "up 1h"
    none (some "xterm") none none none (some "Q\n~ A")
  simpa using h.1

/-- C9 counterexample: on a stale cache entry (`"Old\n~ X"`, modified
the previous day) with a failing network call (transport error), the
`src/unnamed/part_000` variant does not return absent — it propagates
the fetch rejection as an error — while the `src/config.ts` variant
returns the prior cached content.  This refutes the claim that the
part_000 variant "returns absent" on every stale-cache fetch-failure
input. -/
theorem fetchQuoteOrig_transportError_raises :
    fetchQuoteOrig ⟨some ⟨"Old\n~ X", ⟨2024, 4, 16, 12, 0, 0⟩⟩⟩
        ⟨2024, 4, 17, 12, 0, 0⟩ FetchOutcome.transportError =
      Except.error JsError.fetchError ∧
    fetchQuote ⟨some ⟨"Old\n~ X", ⟨2024, 4, 16, 12, 0, 0⟩⟩⟩
        ⟨2024, 4, 17, 12, 0, 0⟩ FetchOutcome.transportError =
      Except.ok ⟨some "Old\n~ X",
        ⟨some ⟨"Old\n~ X", ⟨2024, 4, 16, 12, 0, 0⟩⟩⟩, 1⟩ := by
  exact ⟨rfl, rfl⟩

/-- C9 (amended): the two variants agree whenever the cache is fresh
(same-day), and on every success-status response whose body parses as
a list; on a stale prior cache entry they differ as follows: with a
non-success status the part_000 variant returns absent while the
config.ts variant returns the prior cached content, and with a
transport error (or a body that fails to parse) the part_000 variant
propagates the error while the config.ts variant returns the prior
cached content. -/
theorem fetchQuote_variants_compare :
    (∀ (fs : FsState) (today : Date) (net : FetchOutcome),
      cacheFresh fs today = true →
      fetchQuoteOrig fs today net = fetchQuote fs today net) ∧
    (∀ (fs : FsState) (today : Date) (data : List QuoteRecord),
      fetchQuoteOrig fs today (FetchOutcome.success data) =
        fetchQuote fs today (FetchOutcome.success data)) ∧
    (∀ (fs : FsState) (today : Date) (cf : CacheFile),
      fs.cache = some cf → cacheFresh fs today = false →
      fetchQuoteOrig fs today FetchOutcome.notOk = Except.ok ⟨none, fs, 1⟩ ∧
      fetchQuote fs today FetchOutcome.notOk =
        Except.ok ⟨some cf.content, fs, 1⟩) ∧
    (∀ (fs : FsState) (today : Date) (cf : CacheFile),
      fs.cache = some cf → cacheFresh fs today = false →
      fetchQuoteOrig fs today FetchOutcome.transportError =
        Except.error JsError.fetchError ∧
      fetchQuoteOrig fs today FetchOutcome.badJson =
        Except.error JsError.jsonError ∧
      fetchQuote fs today FetchOutcome.transportError =
        Except.ok ⟨some cf.content, fs, 1⟩ ∧
      fetchQuote fs today FetchOutcome.badJson =
        Except.ok ⟨some cf.content, fs, 1⟩) := by
  refine ⟨?_, ?_, ?_, ?_⟩
  · intro fs today net hg
    simp [fetchQuoteOrig, fetchQuote, hg]
  · intro fs today data
    by_cases hg : cacheFresh fs today = true
    · simp [fetchQuoteOrig, fetchQuote, hg]
    · have hg' : cacheFresh fs today = false := by simpa using hg
      cases data <;> simp [fetchQuoteOrig, fetchQuote, hg']
  · intro fs today cf hc hg
    exact ⟨by simp [fetchQuoteOrig, hg], by simp [fetchQuote, hg, hc]⟩
  · intro fs today cf hc hg
    exact ⟨by simp [fetchQuoteOrig, hg], by simp [fetchQuoteOrig, hg],
      by simp [fetchQuote, hg, hc], by simp [fetchQuote, hg, hc]⟩

theorem fetchQuote_variants_compare_witness :
    fetchQuoteOrig ⟨some ⟨"Old\n~ X", ⟨2024, 4, 16, 12, 0, 0⟩⟩⟩
        ⟨2024, 4, 17, 12, 0, 0⟩ FetchOutcome.notOk =
      Except.ok ⟨none, ⟨some ⟨"Old\n~ X", ⟨2024, 4, 16, 12, 0, 0⟩⟩⟩, 1⟩ ∧
    fetchQuote ⟨some ⟨"Old\n~ X", ⟨2024, 4, 16, 12, 0, 0⟩⟩⟩
        ⟨2024, 4, 17, 12, 0, 0⟩ FetchOutcome.notOk =
      Except.ok ⟨some "Old\n~ X",
        ⟨some ⟨"Old\n~ X", ⟨2024, 4, 16, 12, 0, 0⟩⟩⟩, 1⟩ :=
  fetchQuote_variants_compare.2.2.1
    ⟨some ⟨"Old\n~ X", ⟨2024, 4, 16, 12, 0, 0⟩⟩⟩ ⟨2024, 4, 17, 12, 0, 0⟩
    ⟨"Old\n~ X", ⟨2024, 4, 16, 12, 0, 0⟩⟩ rfl (by decide)
